import Mathlib

/-!
Verification of the credential/session authentication core of `sonar_api`
(`src/auth/pw.rs` and `src/auth/token.rs`), via a shallow embedding.

Rust strings are modelled at the character level (`String` / `List Char`);
all characters manipulated by the code under scrutiny are ASCII, so byte
indices and char indices coincide on every path the proofs touch, and the
`is_char_boundary` checks of the source become `index ≤ length`.

The external Argon2 hash (`argon2rs::argon2i_simple`) is modelled as an
abstract parameter `argon2 : String → String → List Nat` (a deterministic
function returning the hash bytes); the salt drawn from the OS RNG is
likewise passed in as a parameter.
-/

set_option maxRecDepth 40000

namespace Sonar

/-- Result of running a Rust function that may panic: `panic` models an
unwinding panic (e.g. an out-of-bounds slice), `ret a` a normal return. -/
inductive RustResult (α : Type) where
  | panic
  | ret (a : α)
deriving DecidableEq

/-- `argon2rs::defaults::LENGTH` (= 0x20): native hash output length in bytes. -/
def HASH_LENGTH : Nat := 32

/-- `SALT_LENGTH = argon2rs::defaults::LENGTH * 4` from `pw.rs`. -/
def SALT_LENGTH : Nat := HASH_LENGTH * 4

/-- `SaltyPassword` from `pw.rs`: a salt string and the hash bytes
(`[u8; HASH_LENGTH]`, modelled as a list of bytes). -/
structure SaltyPassword where
  salt : String
  hash : List Nat
deriving DecidableEq

/-- `SaltyPassword::new`: hash the password with the (externally generated)
salt.  The RNG-produced salt and the external `argon2i_simple` function are
parameters of the model. -/
def SaltyPassword.new (argon2 : String → String → List Nat) (salt : String)
    (password : String) : SaltyPassword :=
  { hash := argon2 password salt, salt := salt }

/-- `SaltyPassword::validate`: recompute the hash with the stored salt and
compare for exact equality. -/
def SaltyPassword.validate (self : SaltyPassword)
    (argon2 : String → String → List Nat) (password : String) : Bool :=
  self.hash == argon2 password self.salt

/-- Lowercase hex digit for a value `< 16`, as `core::fmt` renders it. -/
def hexDigitChar (n : Nat) : Char :=
  if n < 10 then Char.ofNat (Char.toNat '0' + n)
  else Char.ofNat (Char.toNat 'a' + (n - 10))

/-- `write!(f, "{:x}", byte)` for a `u8`: minimal-width lowercase hex —
one digit when the byte is `< 0x10`, two digits otherwise.  (No zero
padding: that would be `{:02x}`.) -/
def u8LowerHex (b : Nat) : List Char :=
  if b < 16 then [hexDigitChar b]
  else [hexDigitChar (b / 16), hexDigitChar (b % 16)]

/-- `impl fmt::Display for SaltyPassword`: writes `$argon2$`, the salt,
`$`, then each hash byte with `{:x}`, then a final `$`. -/
def SaltyPassword.serialize (self : SaltyPassword) : String :=
  "$argon2$" ++ self.salt ++ "$" ++ String.mk ((self.hash.map u8LowerHex).flatten) ++ "$"

/-- Is `c` an ASCII hex digit (as `char::to_digit(16)` accepts)? -/
def isHexDigitChar (c : Char) : Bool :=
  (decide ('0' ≤ c) && decide (c ≤ '9')) ||
  (decide ('a' ≤ c) && decide (c ≤ 'f')) ||
  (decide ('A' ≤ c) && decide (c ≤ 'F'))

/-- Numeric value of an ASCII hex digit. -/
def hexCharVal (c : Char) : Nat :=
  if decide ('0' ≤ c) && decide (c ≤ '9') then Char.toNat c - Char.toNat '0'
  else if decide ('a' ≤ c) && decide (c ≤ 'f') then Char.toNat c - Char.toNat 'a' + 10
  else Char.toNat c - Char.toNat 'A' + 10

/-- `u8::from_str_radix(s, 16)`: an optional leading `+` sign, then a
nonempty run of hex digits (either case); overflow past `u8::MAX` is an
error.  Note the accepted grammar includes a leading `+`. -/
def u8FromStrRadix16 (s : List Char) : Option Nat :=
  let digits := if s.head? = some '+' then s.tail else s
  if digits.isEmpty then none
  else if digits.all isHexDigitChar then
    let v := digits.foldl (fun acc c => acc * 16 + hexCharVal c) 0
    if v ≤ 255 then some v else none
  else none

/-- The `for index in 0..HASH_LENGTH` loop of `SaltyPassword::parse`:
at each index take the two-character window `hash_chars[2*index..2*index+2]`
(after the char-boundary check, which at char level is a bounds check) and
parse it with `u8::from_str_radix(_, 16)`.  `fuel` counts the remaining
iterations; the loop is entered with `index = 0`, `fuel = HASH_LENGTH`. -/
def parsePairsFrom (hash_chars : List Char) : Nat → Nat → Option (List Nat)
  | _, 0 => some []
  | index, fuel + 1 =>
    let b := index * 2
    let e := b + 2
    if ¬(b ≤ hash_chars.length ∧ e ≤ hash_chars.length) then none
    else
      match u8FromStrRadix16 ((hash_chars.drop b).take 2) with
      | none => none
      | some v => (parsePairsFrom hash_chars (index + 1) fuel).map (v :: ·)

/-- `SaltyPassword::parse` from `pw.rs`, step for step.  The slice
`&field[prefix.len()..(field.len() - 1)]` panics in Rust when the start
exceeds the end, i.e. exactly when the input is `"$argon2$"` itself; the
model returns `RustResult.panic` there. -/
def SaltyPassword.parse (field : String) : RustResult (Option SaltyPassword) :=
  let f := field.data
  let pfx := "$argon2$".data
  if ¬(pfx.isPrefixOf f && List.isSuffixOf "$".data f) then .ret none
  else if pfx.length > f.length - 1 then .panic
  else
    let f1 := (f.take (f.length - 1)).drop pfx.length
    match f1.findIdx? (fun c => c == '$') with
    | none => .ret none
    | some split_index =>
      let saltChars := f1.take split_index
      let hash_chars := (f1.drop split_index).drop 1
      if hash_chars.length ≠ HASH_LENGTH * 2 then .ret none
      else
        match parsePairsFrom hash_chars 0 HASH_LENGTH with
        | none => .ret none
        | some hash => .ret (some ⟨String.mk saltChars, hash⟩)

/-- An Argon2 oracle whose output contains bytes `< 0x10` (the real
`argon2i_simple` produces such a byte in ≈ 87% of outputs). -/
def lowByteArgon2 : String → String → List Nat :=
  fun _ _ => List.replicate 32 5

/-- A well-formed salt of the length `SaltyPassword::new` generates. -/
def sampleSalt : String := String.mk (List.replicate 128 'a')

/-- A hash whose bytes all render as one hex digit under `{:x}`. -/
def lowHash : List Nat := List.replicate 32 5

/-- C1: the encode→serialize→parse round trip FAILS whenever the hash
contains a byte `< 0x10`: `Display` renders such a byte as a single hex
digit, the hash segment comes out shorter than `2 × HASH_LENGTH`, and
`parse` rejects it with `None`.  Evaluated here at a failing input. -/
theorem c1_roundtrip_fails :
    SaltyPassword.parse
      (SaltyPassword.serialize (SaltyPassword.new lowByteArgon2 sampleSalt "hunter2")) =
      RustResult.ret none := by
  decide

/-- C2: `SaltyPassword::parse` is NOT total, and its rejection of non-hex
hash segments is incomplete.  On the input `"$argon2$"` (which both starts
with the prefix and ends with `$`, sharing the final dollar) the slice
`&field[8..7]` panics instead of returning `None`; and a 64-character hash
segment of `+a` pairs — containing the non-hex character `+` — is accepted,
because `u8::from_str_radix` tolerates a leading `+` in each window. -/
theorem c2_parse_panics :
    SaltyPassword.parse "$argon2$" = RustResult.panic ∧
    SaltyPassword.parse
        ("$argon2$s$" ++ String.mk (List.flatten (List.replicate 32 ['+', 'a'])) ++ "$") =
      RustResult.ret (some ⟨"s", List.replicate 32 10⟩) := by
  constructor
  · decide
  · decide

/-- Serialization as §6 of the spec states it: hash rendered as lowercase
hex of fixed length `2 ×` the native hash byte length (zero-padded pairs). -/
def u8LowerHexPadded (b : Nat) : List Char :=
  [hexDigitChar (b / 16 % 16), hexDigitChar (b % 16)]

/-- The spec's bit-exact serialized format, for comparison with the code's
`Display` implementation. -/
def specSerialize (sp : SaltyPassword) : String :=
  "$argon2$" ++ sp.salt ++ "$" ++ String.mk ((sp.hash.map u8LowerHexPadded).flatten) ++ "$"

/-- C3: the code's serialization does NOT match the spec's fixed-length
lowercase-hex format: `{:x}` omits the leading zero of every byte `< 0x10`,
so the hash segment is 32 characters here instead of 64. -/
theorem c3_format_mismatch :
    SaltyPassword.serialize ⟨sampleSalt, lowHash⟩ ≠ specSerialize ⟨sampleSalt, lowHash⟩ ∧
    (SaltyPassword.serialize ⟨sampleSalt, lowHash⟩).length + 32 =
      (specSerialize ⟨sampleSalt, lowHash⟩).length := by
  constructor
  · decide
  · decide

/-- C8: password verification round-trip: for every plaintext, hashing with
a fresh salt and validating the same plaintext against the result succeeds,
for every deterministic Argon2 function and every salt. -/
theorem c8_validate_encode (argon2 : String → String → List Nat)
    (salt p : String) :
    (SaltyPassword.new argon2 salt p).validate argon2 p = true := by
  simp [SaltyPassword.new, SaltyPassword.validate]

/-!
Token authority (`src/auth/token.rs`).  The database behind diesel is
modelled as an explicit `TokenStore` state (the `auth_tokens` table) and
lookup oracles; connection-pool acquisition and the OS RNG are external
and modelled as available (their failure paths are infrastructure faults
outside the claims).  The RNG stream is a parameter `keys : Nat → String`
giving the n-th proposed 64-character key.
-/

/-- `models::User` (only the id takes part in the verified logic). -/
structure User where
  id : Int
deriving DecidableEq

/-- A row of `auth_tokens` as the token logic reads and writes it
(`models::Token` / `models::NewToken`): the store-assigned `id` and the
`timestamp` column are never read by this core, so they are omitted. -/
structure Token where
  user_id : Int
  key : String
deriving DecidableEq

/-- The `auth_tokens` table. -/
structure TokenStore where
  tokens : List Token
deriving DecidableEq

/-- `select(exists(auth_tokens.filter(key.eq(k))))`: does any row carry
this key? -/
def TokenStore.keyExists (s : TokenStore) (k : String) : Bool :=
  s.tokens.any (fun t => t.key == k)

/-- `delete(auth_tokens.filter(user_id.eq(u)))`: remove every row of the
given user. -/
def TokenStore.deleteFor (s : TokenStore) (u : Int) : TokenStore :=
  ⟨s.tokens.filter (fun t => t.user_id != u)⟩

/-- `insert(&NewToken { user_id, key }).into(auth_tokens)`: append a row. -/
def TokenStore.insertRow (s : TokenStore) (t : Token) : TokenStore :=
  ⟨s.tokens ++ [t]⟩

/-- `auth_tokens.filter(key.eq(k)).first::<Token>`: the first row with the
given key, if any. -/
def TokenStore.findByKey (s : TokenStore) (k : String) : Option Token :=
  s.tokens.find? (fun t => t.key == k)

/-- `TokenAuth::invalidate_for`: delete every token row of the user. -/
def invalidate_for (s : TokenStore) (user : User) : TokenStore :=
  s.deleteFor user.id

/-- The error string of the exhausted bounded retry in `create_for`
(the spec's `TokenGenerationExhausted`). -/
def exhaustedMsg : String := "Couldn't find unused key after 10 tries"

/-- The key-generation `loop` of `TokenAuth::create_for`: propose the next
random key (`keys i`), query the store for its existence, accept it if
absent; otherwise increment the counter `i` and give up once `i ≥ 10`.
`fuel` is a structural bound on the remaining iterations; the loop is
entered with `i = 0`, `fuel = 10`, and with `i + fuel = 10` the `fuel = 0`
case is never reached (the `i + 1 ≥ 10` exit fires first). -/
def keyLoop (s : TokenStore) (keys : Nat → String) : Nat → Nat → Except String String
  | _, 0 => .error exhaustedMsg
  | i, fuel + 1 =>
    if s.keyExists (keys i) = false then .ok (keys i)
    else if i + 1 ≥ 10 then .error exhaustedMsg
    else keyLoop s keys (i + 1) fuel

/-- `TokenAuth::create_for`: find an unused key with the bounded retry
loop; on success delete all of the user's tokens and insert the new row,
returning the key; on exhaustion propagate the error (via `?`) with the
store untouched.  Returns the result together with the store state. -/
def create_for (s : TokenStore) (keys : Nat → String) (user : User) :
    Except String String × TokenStore :=
  match keyLoop s keys 0 10 with
  | .error e => (.error e, s)
  | .ok new_key =>
    (.ok new_key, (s.deleteFor user.id).insertRow ⟨user.id, new_key⟩)

/-- Result of a diesel `first::<T>` query: a row, `Err(NotFound)`, or any
other database error (carrying its rendered message `e.to_string()`). -/
inductive StoreResult (α : Type) where
  | found (a : α)
  | notFound
  | failure (msg : String)

/-- Display of `diesel::result::Error::NotFound` (external crate). -/
def notFoundMsg : String := "NotFound"

/-- The successful outcome of the request guard. -/
structure TokenAuth where
  user : User
deriving DecidableEq

/-- The `Token ` literal stripped from the `Authorization` header. -/
def TOKEN_PREFIX : String := "Token "

/-- `<TokenAuth as FromRequest>::from_request`: `headers` is the list of
`Authorization` header values; `lookupToken` and `lookupUser` are the two
diesel queries (oracles over the store).  Failures are `(status, message)`
pairs exactly as the `Failure` outcomes of the source; `401`, `403`, `500`
are `Status::Unauthorized`, `Status::Forbidden`,
`Status::InternalServerError`. -/
def from_request (headers : List String)
    (lookupToken : String → StoreResult Token)
    (lookupUser : Int → StoreResult User) :
    Except (Nat × String) TokenAuth :=
  match headers with
  | [key] =>
    if ¬ TOKEN_PREFIX.data.isPrefixOf key.data then
      .error (401, "`Authorization` header must begin with the string 'Token '")
    else
      let incoming_key : String := String.mk (key.data.drop TOKEN_PREFIX.data.length)
      match lookupToken incoming_key with
      | .notFound => .error (403, "Token presented was not valid")
      | .failure msg => .error (500, msg)
      | .found token =>
        match lookupUser token.user_id with
        | .found u => .ok ⟨u⟩
        | .notFound => .error (500, notFoundMsg)
        | .failure msg => .error (500, msg)
  | _ => .error (401, "`Authorization` header must appear exactly once")

/-- The token-lookup oracle a real store provides: diesel's `first` returns
`Err(NotFound)` when no row matches. -/
def TokenStore.lookup (s : TokenStore) (k : String) : StoreResult Token :=
  match s.findByKey k with
  | some t => .found t
  | none => .notFound

/-- A successful exit of the retry loop only ever returns a key the store
reported as absent. -/
theorem keyLoop_ok_keyExists {s : TokenStore} {keys : Nat → String} :
    ∀ fuel i {k}, keyLoop s keys i fuel = .ok k → s.keyExists k = false := by
  intro fuel
  induction fuel with
  | zero =>
    intro i k h
    simp [keyLoop] at h
  | succ n ih =>
    intro i k h
    by_cases hfree : s.keyExists (keys i) = false
    · simp only [keyLoop, if_pos hfree] at h
      cases h
      exact hfree
    · by_cases hstop : i + 1 ≥ 10
      · simp only [keyLoop, if_neg hfree, if_pos hstop] at h
        cases h
      · simp only [keyLoop, if_neg hfree, if_neg hstop] at h
        exact ih _ h

/-- The retry loop consults only the first `i + fuel` entries of the RNG
stream: with `i = 0`, `fuel = 10`, at most ten candidate keys in total. -/
theorem keyLoop_congr {s : TokenStore} {keys keys2 : Nat → String} :
    ∀ fuel i, (∀ n, n < i + fuel → keys n = keys2 n) →
      keyLoop s keys i fuel = keyLoop s keys2 i fuel := by
  intro fuel
  induction fuel with
  | zero => intro i _; rfl
  | succ n ih =>
    intro i hsame
    have hk : keys i = keys2 i := hsame i (by omega)
    by_cases hfree : s.keyExists (keys2 i) = false
    · simp only [keyLoop, hk, if_pos hfree]
    · by_cases hstop : i + 1 ≥ 10
      · simp only [keyLoop, hk, if_neg hfree, if_pos hstop]
      · simp only [keyLoop, hk, if_neg hfree, if_neg hstop]
        exact ih (i + 1) (fun m hm => hsame m (by omega))

/-- When every candidate the stream can propose is already taken, the loop
exhausts its ten attempts and reports the exhaustion error. -/
theorem keyLoop_exhausted {s : TokenStore} {keys : Nat → String}
    (hall : ∀ n, n < 10 → s.keyExists (keys n) = true) :
    ∀ fuel i, i + fuel = 10 → keyLoop s keys i fuel = .error exhaustedMsg := by
  intro fuel
  induction fuel with
  | zero => intro i _; rfl
  | succ n ih =>
    intro i hi
    have hex : s.keyExists (keys i) = true := hall i (by omega)
    by_cases hstop : i + 1 ≥ 10
    · simp only [keyLoop, if_neg (by simp [hex] : ¬s.keyExists (keys i) = false),
        if_pos hstop]
    · simp only [keyLoop, if_neg (by simp [hex] : ¬s.keyExists (keys i) = false),
        if_neg hstop]
      exact ih (i + 1) (by omega)

/-- Inversion of a successful `create_for`: the returned key was absent
from the store, and the new store state is delete-then-insert. -/
theorem create_for_ok {s s2 : TokenStore} {keys : Nat → String} {user : User}
    {K : String} (h : create_for s keys user = (.ok K, s2)) :
    s.keyExists K = false ∧
      s2 = (s.deleteFor user.id).insertRow ⟨user.id, K⟩ := by
  unfold create_for at h
  cases hk : keyLoop s keys 0 10 with
  | error e =>
    rw [hk] at h
    simp at h
  | ok nk =>
    rw [hk] at h
    simp only [Prod.mk.injEq, Except.ok.injEq] at h
    obtain ⟨h1, h2⟩ := h
    subst h1
    exact ⟨keyLoop_ok_keyExists 10 0 hk, h2.symm⟩

/-- `keyExists = false` unpacked to row level. -/
theorem keyExists_false_forall {s : TokenStore} {k : String}
    (h : s.keyExists k = false) : ∀ t ∈ s.tokens, t.key ≠ k := by
  intro t ht he
  have : s.keyExists k = true :=
    List.any_eq_true.mpr ⟨t, ht, by simp [he]⟩
  rw [this] at h
  cases h

/-- Behaviour of the request guard on a header that is literally the token
marker followed by a key: the key is looked up verbatim and the outcome is
classified exactly as in the source. -/
theorem from_request_token (k : String) (lookupToken : String → StoreResult Token)
    (lookupUser : Int → StoreResult User) :
    from_request [TOKEN_PREFIX ++ k] lookupToken lookupUser =
      (match lookupToken k with
       | .notFound => .error (403, "Token presented was not valid")
       | .failure msg => .error (500, msg)
       | .found token =>
         match lookupUser token.user_id with
         | .found u => .ok ⟨u⟩
         | .notFound => .error (500, notFoundMsg)
         | .failure msg => .error (500, msg)) := by
  have hpre : TOKEN_PREFIX.data.isPrefixOf (TOKEN_PREFIX ++ k).data = true := by
    rw [String.data_append]
    exact List.isPrefixOf_iff_prefix.mpr (List.prefix_append _ _)
  have hdrop : String.mk ((TOKEN_PREFIX ++ k).data.drop TOKEN_PREFIX.data.length) = k := by
    rw [String.data_append, List.drop_left]
  simp only [from_request]
  rw [if_neg (by simp [hpre]), hdrop]

/-- The remainder of the header after the `Token ` marker, exactly as the
source slices it (`&key[TOKEN_PREFIX.len()..]`). -/
def incomingKey (h : String) : String :=
  String.mk (h.data.drop TOKEN_PREFIX.data.length)

/-- Behaviour of the request guard on any single well-prefixed header. -/
theorem from_request_single (h : String) (lookupToken : String → StoreResult Token)
    (lookupUser : Int → StoreResult User)
    (hpre : TOKEN_PREFIX.data.isPrefixOf h.data = true) :
    from_request [h] lookupToken lookupUser =
      (match lookupToken (incomingKey h) with
       | .notFound => .error (403, "Token presented was not valid")
       | .failure msg => .error (500, msg)
       | .found token =>
         match lookupUser token.user_id with
         | .found u => .ok ⟨u⟩
         | .notFound => .error (500, notFoundMsg)
         | .failure msg => .error (500, msg)) := by
  simp only [from_request, incomingKey]
  rw [if_neg (by simp [hpre])]

/-- C5: error classification of `from_request` past the header checks: a
token-lookup miss is `403` with the fixed invalid-credential message, any
other token-lookup failure is `500`, and a found token whose user is
missing (or whose user lookup fails otherwise) is `500` — never `403`. -/
theorem c5_error_classification (h : String)
    (lookupToken : String → StoreResult Token) (lookupUser : Int → StoreResult User)
    (hpre : TOKEN_PREFIX.data.isPrefixOf h.data = true) :
    (lookupToken (incomingKey h) = .notFound →
        from_request [h] lookupToken lookupUser =
          .error (403, "Token presented was not valid")) ∧
    (∀ msg, lookupToken (incomingKey h) = .failure msg →
        from_request [h] lookupToken lookupUser = .error (500, msg)) ∧
    (∀ t, lookupToken (incomingKey h) = .found t →
        lookupUser t.user_id = .notFound →
        from_request [h] lookupToken lookupUser = .error (500, notFoundMsg)) ∧
    (∀ t msg, lookupToken (incomingKey h) = .found t →
        lookupUser t.user_id = .failure msg →
        from_request [h] lookupToken lookupUser = .error (500, msg)) := by
  refine ⟨fun hnf => ?_, fun msg hf => ?_, fun t hfound hunf => ?_,
    fun t msg hfound huf => ?_⟩ <;>
    rw [from_request_single h lookupToken lookupUser hpre]
  · rw [hnf]
  · rw [hf]
  · rw [hfound]
    simp [hunf]
  · rw [hfound]
    simp [huf]

/-- C7: header validation: any number of `Authorization` values other than
one is rejected with `401` and the exactly-once message, and a single value
without the `Token ` marker is rejected with `401` naming the marker; in
both cases the outcome is the same for every store oracle (no store
operation is consulted). -/
theorem c7_header_validation (headers : List String)
    (lookupToken : String → StoreResult Token)
    (lookupUser : Int → StoreResult User) :
    (headers.length ≠ 1 →
        from_request headers lookupToken lookupUser =
          .error (401, "`Authorization` header must appear exactly once")) ∧
    (∀ k, headers = [k] → TOKEN_PREFIX.data.isPrefixOf k.data = false →
        from_request headers lookupToken lookupUser =
          .error (401, "`Authorization` header must begin with the string 'Token '")) := by
  constructor
  · intro hlen
    cases headers with
    | nil => rfl
    | cons a t =>
      cases t with
      | nil => simp at hlen
      | cons b t2 => rfl
  · intro k hk hpfx
    subst hk
    simp only [from_request]
    rw [if_pos (by simp [hpfx])]

/-- C10: no key-shape validation after the marker: whatever the remainder
`k` is — empty, shorter or longer than 64 characters — it is looked up
verbatim, and when the store has no such key the outcome is the `403`
invalid-credential failure, not a malformed-request one. -/
theorem c10_no_key_shape_check (k : String)
    (lookupToken : String → StoreResult Token)
    (lookupUser : Int → StoreResult User)
    (habs : lookupToken k = StoreResult.notFound) :
    from_request [TOKEN_PREFIX ++ k] lookupToken lookupUser =
      .error (403, "Token presented was not valid") := by
  rw [from_request_token, habs]

/-- C6: bounded retry with atomic failure: for every store (hence every
sequence of existence-check answers), `create_for` consults only the first
ten keys the RNG stream can propose — its outcome is unchanged by altering
the stream from index 10 on — and when all ten proposals already exist in
the store it returns the exhaustion error and leaves the store exactly as
it was — no delete, no insert. -/
theorem c6_bounded_retry_exhaustion (s : TokenStore) (keys keys2 : Nat → String)
    (user : User)
    (hsame : ∀ n, n < 10 → keys n = keys2 n) :
    create_for s keys user = create_for s keys2 user ∧
    ((∀ n, n < 10 → s.keyExists (keys n) = true) →
      create_for s keys user = (.error exhaustedMsg, s)) := by
  constructor
  · unfold create_for
    rw [keyLoop_congr 10 0 (fun n hn => hsame n (by omega))]
  · intro hall
    unfold create_for
    rw [keyLoop_exhausted hall 10 0 (by omega)]

/-- C4: token replacement: after two successful sequential `create_for`
calls for the same user the two keys differ, the first key is no longer
recognized (`403`, invalid credential), and the second key authenticates
and resolves to the user's record. -/
theorem c4_token_replacement (s0 s1 s2 : TokenStore) (keys1 keys2 : Nat → String)
    (user uRec : User) (lookupUser : Int → StoreResult User) (K1 K2 : String)
    (h1 : create_for s0 keys1 user = (.ok K1, s1))
    (h2 : create_for s1 keys2 user = (.ok K2, s2))
    (hu : lookupUser user.id = .found uRec) :
    K1 ≠ K2 ∧
    from_request [TOKEN_PREFIX ++ K1] s2.lookup lookupUser =
      .error (403, "Token presented was not valid") ∧
    from_request [TOKEN_PREFIX ++ K2] s2.lookup lookupUser = .ok ⟨uRec⟩ := by
  obtain ⟨e1k, e1s⟩ := create_for_ok h1
  obtain ⟨e2k, e2s⟩ := create_for_ok h2
  have hs0 := keyExists_false_forall e1k
  have hs1 := keyExists_false_forall e2k
  have hK1in : s1.keyExists K1 = true := by
    rw [e1s]
    simp [TokenStore.keyExists, TokenStore.insertRow, List.any_append]
  have hne : K1 ≠ K2 := by
    intro he
    rw [he, e2k] at hK1in
    cases hK1in
  have hfind1 : s2.findByKey K1 = none := by
    apply List.find?_eq_none.mpr
    intro t ht hbe
    have htk : t.key = K1 := by simpa using hbe
    rw [e2s] at ht
    simp only [TokenStore.insertRow, TokenStore.deleteFor, List.mem_append,
      List.mem_filter, List.mem_singleton] at ht
    rcases ht with ⟨hmem1, hq⟩ | heq
    · rw [e1s] at hmem1
      simp only [TokenStore.insertRow, TokenStore.deleteFor, List.mem_append,
        List.mem_filter, List.mem_singleton] at hmem1
      rcases hmem1 with ⟨hmem0, _⟩ | heq1
      · exact hs0 t hmem0 htk
      · rw [heq1] at hq
        simp [bne] at hq
    · rw [heq] at htk
      exact hne htk.symm
  have hfind2 : s2.findByKey K2 = some ⟨user.id, K2⟩ := by
    rw [e2s]
    unfold TokenStore.findByKey TokenStore.insertRow TokenStore.deleteFor
    rw [List.find?_append]
    have hleft : (List.filter (fun t => t.user_id != user.id) s1.tokens).find?
        (fun t => t.key == K2) = none := by
      apply List.find?_eq_none.mpr
      intro t ht hbe
      exact hs1 t (List.mem_filter.mp ht).1 (by simpa using hbe)
    rw [hleft]
    simp [List.find?]
  refine ⟨hne, ?_, ?_⟩
  · rw [from_request_token]
    simp [TokenStore.lookup, hfind1]
  · rw [from_request_token]
    simp [TokenStore.lookup, hfind2, hu]

/-- One sequential token-authority operation on a fixed user: an
`invalidate_for` call or a `create_for` call with a given RNG stream. -/
inductive AuthOp where
  | invalidate
  | create (keys : Nat → String)

/-- Store state after one operation (a failed `create_for` leaves the
store unchanged, as its error propagates before any write). -/
def applyOp (user : User) (s : TokenStore) : AuthOp → TokenStore
  | .invalidate => invalidate_for s user
  | .create keys => (create_for s keys user).2

/-- Store state after a sequential run of operations. -/
def applyOps (user : User) (s : TokenStore) (ops : List AuthOp) : TokenStore :=
  ops.foldl (applyOp user) s

/-- Number of live tokens the store holds for the user id `u`. -/
def tokenCountFor (s : TokenStore) (u : Int) : Nat :=
  (s.tokens.filter (fun t => t.user_id == u)).length

/-- Deleting a user's rows leaves no row of that user to filter out. -/
theorem deleteFor_filter_nil (s : TokenStore) (u : Int) :
    (s.deleteFor u).tokens.filter (fun t => t.user_id == u) = [] := by
  unfold TokenStore.deleteFor
  rw [List.filter_filter]
  apply List.filter_eq_nil_iff.mpr
  intro a _
  cases hbe : a.user_id == u <;> simp [bne, hbe]

theorem tokenCountFor_deleteFor (s : TokenStore) (u : Int) :
    tokenCountFor (s.deleteFor u) u = 0 := by
  unfold tokenCountFor
  rw [deleteFor_filter_nil]
  rfl

/-- A successful `create_for` leaves exactly one token for the user: it
deletes all of the user's rows and inserts the single new one. -/
theorem tokenCountFor_create_ok {s s2 : TokenStore} {keys : Nat → String}
    {user : User} {K : String} (h : create_for s keys user = (.ok K, s2)) :
    tokenCountFor s2 user.id = 1 := by
  obtain ⟨-, hs2⟩ := create_for_ok h
  subst hs2
  unfold tokenCountFor TokenStore.insertRow
  rw [List.filter_append, deleteFor_filter_nil]
  simp

/-- A failed `create_for` returns the store untouched. -/
theorem create_for_error {s s2 : TokenStore} {keys : Nat → String} {user : User}
    {e : String} (h : create_for s keys user = (.error e, s2)) : s2 = s := by
  unfold create_for at h
  cases hk : keyLoop s keys 0 10 with
  | error e2 =>
    rw [hk] at h
    simp only [Prod.mk.injEq] at h
    exact h.2.symm
  | ok nk =>
    rw [hk] at h
    simp at h

/-- Every single operation preserves "at most one token for the user". -/
theorem applyOp_preserves (user : User) (s : TokenStore) (op : AuthOp)
    (h : tokenCountFor s user.id ≤ 1) :
    tokenCountFor (applyOp user s op) user.id ≤ 1 := by
  cases op with
  | invalidate =>
    show tokenCountFor (s.deleteFor user.id) user.id ≤ 1
    rw [tokenCountFor_deleteFor]
    omega
  | create keys =>
    show tokenCountFor (create_for s keys user).2 user.id ≤ 1
    rcases hc : create_for s keys user with ⟨r, s2⟩
    cases r with
    | error e =>
      rw [create_for_error hc]
      exact h
    | ok K =>
      rw [tokenCountFor_create_ok hc]

theorem applyOps_preserves (user : User) (ops : List AuthOp) :
    ∀ s : TokenStore, tokenCountFor s user.id ≤ 1 →
      tokenCountFor (applyOps user s ops) user.id ≤ 1 := by
  induction ops with
  | nil => intro s h; exact h
  | cons op t ih =>
    intro s h
    show tokenCountFor (applyOps user (applyOp user s op) t) user.id ≤ 1
    exact ih _ (applyOp_preserves user s op h)

/-- C9: at most one live token per user: from any store in which the user
has at most one token, every sequential run of `invalidate_for` and
`create_for` operations keeps it at most one; and a successful `create_for`
in particular deletes all of the user's rows and then inserts the single
new one, leaving exactly one. -/
theorem c9_at_most_one_token (s : TokenStore) (user : User) (ops : List AuthOp)
    (h : tokenCountFor s user.id ≤ 1) :
    tokenCountFor (applyOps user s ops) user.id ≤ 1 ∧
    (∀ keys K s2, create_for s keys user = (.ok K, s2) →
        tokenCountFor s2 user.id = 1) :=
  ⟨applyOps_preserves user ops s h, fun _ _ _ hc => tokenCountFor_create_ok hc⟩

/-!  Concrete fixtures for the witness theorems. -/

/-- A constant RNG stream. -/
def kStream : Nat → String := fun _ => "k"

/-- A stream agreeing with `kStream` on the first ten indices only. -/
def kStream2 : Nat → String := fun n => if n < 10 then "k" else "x"

def keysA : Nat → String := fun _ => "KEY1"

def keysB : Nat → String := fun _ => "KEY2"

def emptyStore : TokenStore := ⟨[]⟩

def storeA : TokenStore := ⟨[⟨0, "KEY1"⟩]⟩

def storeB : TokenStore := ⟨[⟨0, "KEY2"⟩]⟩

def takenStore : TokenStore := ⟨[⟨0, "k"⟩]⟩

/-- A users table holding the single user with id 0. -/
def aliceOracle : Int → StoreResult User := fun i =>
  if i == 0 then .found ⟨0⟩ else .notFound

/-- A token table with no rows. -/
def noTokenOracle : String → StoreResult Token := fun _ => .notFound

/-- Witness for C4 at a concrete store, user, and RNG streams. -/
theorem c4_witness :
    ("KEY1" : String) ≠ "KEY2" ∧
    from_request [TOKEN_PREFIX ++ "KEY1"] storeB.lookup aliceOracle =
      .error (403, "Token presented was not valid") ∧
    from_request [TOKEN_PREFIX ++ "KEY2"] storeB.lookup aliceOracle = .ok ⟨⟨0⟩⟩ :=
  c4_token_replacement emptyStore storeA storeB keysA keysB ⟨0⟩ ⟨0⟩ aliceOracle
    "KEY1" "KEY2" rfl rfl rfl

/-- Witness for C5: a well-prefixed header whose key the store lacks. -/
theorem c5_witness :
    from_request ["Token abc"] noTokenOracle aliceOracle =
      .error (403, "Token presented was not valid") :=
  (c5_error_classification "Token abc" noTokenOracle aliceOracle (by decide)).1 rfl

/-- Witness for C6: a store already holding the only key the stream
proposes. -/
theorem c6_witness :
    create_for takenStore kStream ⟨0⟩ = create_for takenStore kStream2 ⟨0⟩ ∧
    create_for takenStore kStream ⟨0⟩ = (.error exhaustedMsg, takenStore) :=
  ⟨(c6_bounded_retry_exhaustion takenStore kStream kStream2 ⟨0⟩
      (fun n hn => by simp [kStream, kStream2, hn])).1,
   (c6_bounded_retry_exhaustion takenStore kStream kStream2 ⟨0⟩
      (fun n hn => by simp [kStream, kStream2, hn])).2 (fun n _ => rfl)⟩

/-- Witness for C7: a missing header and a mis-prefixed header. -/
theorem c7_witness :
    from_request [] noTokenOracle aliceOracle =
      .error (401, "`Authorization` header must appear exactly once") ∧
    from_request ["Bearer x"] noTokenOracle aliceOracle =
      .error (401, "`Authorization` header must begin with the string 'Token '") :=
  ⟨(c7_header_validation [] noTokenOracle aliceOracle).1 (by decide),
   (c7_header_validation ["Bearer x"] noTokenOracle aliceOracle).2 "Bearer x" rfl
     (by decide)⟩

/-- Witness for C9: a run of an invalidation and a creation from the empty
store. -/
theorem c9_witness :
    tokenCountFor (applyOps ⟨0⟩ emptyStore [AuthOp.invalidate, AuthOp.create kStream])
      (0 : Int) ≤ 1 :=
  (c9_at_most_one_token emptyStore ⟨0⟩ [AuthOp.invalidate, AuthOp.create kStream]
    (by decide)).1

/-- Witness for C10: the header that is exactly `Token ` — an empty key —
is looked up and rejected as an invalid credential, not as malformed. -/
theorem c10_witness :
    from_request [TOKEN_PREFIX ++ ""] noTokenOracle aliceOracle =
      .error (403, "Token presented was not valid") :=
  c10_no_key_shape_check "" noTokenOracle aliceOracle rfl

end Sonar
